import Mathlib

/-!
Verification of the PGF-to-raster conversion pipeline of the `vscode-pgf`
extension (`src/extension.ts`).  The pure string processing
(`extractMatplotlibPreamble`, the synthesized LaTeX document) is embedded
directly; the effectful stages (`compilePgfToPdf`, `renderPdfToPng`,
`PgfViewerProvider.resolveCustomEditor`) are embedded as deterministic
functions of an oracle environment describing the outcomes of the external
calls (file reads, `pdflatex`, the three rasterizer tools, existence
checks), and they additionally record the list of filesystem/process
operations they perform, so that frame properties can be stated.
-/

namespace PgfViewer

/-- Character class of the JavaScript regular-expression escape `\s`
(whitespace), used by the regexes in `extractMatplotlibPreamble` and by
`String.prototype.trim`. -/
def jsIsSpace (c : Char) : Bool :=
  c = ' ' || c = '\t' || c = '\n' || c = '\r' || c = '\x0b' || c = '\x0c' ||
  c = '\u00A0' || c = '\u1680' || (0x2000 ≤ c.toNat && c.toNat ≤ 0x200a) ||
  c = '\u2028' || c = '\u2029' || c = '\u202F' || c = '\u205F' ||
  c = '\u3000' || c = '\uFEFF'

/-- Splitting a character sequence at `\r?\n`, as in
`text.split(/\r?\n/)` (line 53 of the source).  `acc` holds the current
line reversed. -/
def splitLinesAux : List Char → List Char → List (List Char)
  | [], acc => [acc.reverse]
  | '\r' :: '\n' :: rest, acc => acc.reverse :: splitLinesAux rest []
  | '\n' :: rest, acc => acc.reverse :: splitLinesAux rest []
  | c :: rest, acc => splitLinesAux rest (c :: acc)

/-- Lines of a text, per the JavaScript split on the regex `\r?\n`. -/
def splitLines (text : List Char) : List (List Char) :=
  splitLinesAux text []

/-- Literal part of the marker regex on line 56 of the source. -/
def markerLit : List Char := "Matplotlib used the following preamble".data

/-- Test of the regex `%+\s*Matplotlib used the following preamble`
anchored at the start of the line (source line 56): one or more `%`, then
any whitespace, then the literal marker text, with anything after it. -/
def isMarkerLine (l : List Char) : Bool :=
  !(l.takeWhile (· = '%')).isEmpty &&
    markerLit.isPrefixOf ((l.dropWhile (· = '%')).dropWhile jsIsSpace)

/-- Test of the regex `%+\s{3}` anchored at the start of the line (source
line 62): one or more `%` followed by at least three whitespace
characters. -/
def isIndentLine (l : List Char) : Bool :=
  !(l.takeWhile (· = '%')).isEmpty &&
    (match l.dropWhile (· = '%') with
     | a :: b :: c :: _ => jsIsSpace a && jsIsSpace b && jsIsSpace c
     | _ => false)

/-- Effect of `line.replace(/^\s*%+\s*/, '')` (source line 63): if the
line consists of optional whitespace followed by at least one `%`, strip
that prefix together with the whitespace after the percent signs;
otherwise the line is unchanged. -/
def stripCommentPrefix (l : List Char) : List Char :=
  let afterWs := l.dropWhile jsIsSpace
  if (afterWs.takeWhile (· = '%')).isEmpty then l
  else (afterWs.dropWhile (· = '%')).dropWhile jsIsSpace

/-- JavaScript `String.prototype.trim` on a character sequence: drop
whitespace from both ends. -/
def jsTrim (l : List Char) : List Char :=
  ((l.dropWhile jsIsSpace).reverse.dropWhile jsIsSpace).reverse

/-- Core of `extractMatplotlibPreamble` (source lines 52-67), over the
list of lines: find the first marker line, collect the immediately
following indent-pattern lines with their comment prefixes stripped,
join them with a newline and trim; an empty trimmed result and a missing
marker both yield `none`. -/
def extractCore : List (List Char) → Option (List Char)
  | [] => none
  | l :: rest =>
    if isMarkerLine l then
      let out := (rest.takeWhile isIndentLine).map stripCommentPrefix
      let r := jsTrim (List.intercalate ['\n'] out)
      if r.isEmpty then none else some r
    else extractCore rest

/-- The function `extractMatplotlibPreamble` of source lines 52-67, on
whole strings. -/
def extractMatplotlibPreamble (text : String) : Option String :=
  (extractCore (splitLines text.data)).map fun l => ⟨l⟩

example : extractMatplotlibPreamble "no marker here" = none := by decide

example :
    extractMatplotlibPreamble
      "%Matplotlib used the following preamble\n%   abc\nend" = some "abc" := by
  decide

example :
    extractMatplotlibPreamble
      "x\n%% Matplotlib used the following preamble\n%%   a\n%%   b\n" =
      some "a\nb" := by
  decide

example : extractMatplotlibPreamble "% Matplotlib used the following preamble\n" = none := by
  decide

/-! Node `path` helpers, modelled for the ordinary absolute file paths the
pipeline handles (no trailing slashes beyond directory separators). -/

/-- Node `path.join(a, b)` for a normalized directory `a` and a relative
name `b`. -/
def joinPath (a b : String) : String := a ++ "/" ++ b

/-- Node `path.basename(p)`: the final path component, ignoring trailing
slashes. -/
def basenameOf (p : String) : String :=
  ⟨((p.data.reverse.dropWhile (· = '/')).takeWhile (· ≠ '/')).reverse⟩

/-- Node `path.extname(p)`: the suffix of the basename starting at its
last dot, provided that dot is not the leading character; otherwise the
empty string. -/
def extnameOf (p : String) : String :=
  match (basenameOf p).data with
  | [] => ""
  | _ :: rest =>
    if rest.contains '.' then ⟨'.' :: (rest.reverse.takeWhile (· ≠ '.')).reverse⟩
    else ""

/-- The expression `path.basename(srcPath, path.extname(srcPath))` used on
source lines 42 and 95: the basename with its extension removed. -/
def baseNoExt (p : String) : String :=
  let b := (basenameOf p).data
  let e := (extnameOf p).data
  if e.isEmpty then ⟨b⟩ else ⟨b.take (b.length - e.length)⟩

example : baseNoExt "/home/u/plots/fig.pgf" = "fig" := by decide
example : basenameOf "/home/u/plots/fig.pgf" = "fig.pgf" := by decide
example : baseNoExt "fig" = "fig" := by decide
example : baseNoExt "/a/.pgf" = ".pgf" := by decide

/-- JavaScript `s.length` of the code's log handling, modelled as the
number of characters. -/
def jsLength (s : String) : Nat := s.data.length

/-- JavaScript `s.slice(0, n)`, modelled as the first `n` characters. -/
def jsSlice (s : String) (n : Nat) : String := ⟨s.data.take n⟩

/-- The synthesized LaTeX document of source line 71.  The template-literal
interpolation `matplotlibPreamble ? matplotlibPreamble + '\n' : ''` is
truthiness-based, so a `some ""` preamble, like `none`, contributes
nothing. -/
def synthesizeTex (srcPath : String) (preamble : Option String) : String :=
  "\\documentclass[border=1mm]{standalone}\n\\usepackage{pgf}\n\\usepackage{lmodern}\n" ++
    (match preamble with
     | some p => if p = "" then "" else p ++ "\n"
     | none => "") ++
    "\\begin\x7bdocument\x7d\n\\input\x7b" ++ srcPath ++ "\x7d\n\\end\x7bdocument\x7d\n"

/-- Filesystem and process operations the pipeline can perform.  Deletion
operations are part of the vocabulary so that their absence from the
recorded traces is a meaningful statement. -/
inductive FsOp where
  | mkdtempOp (prefixPath : String)
  | copyFileOp (src dst : String)
  | readFileOp (path : String)
  | writeFileOp (path content : String)
  | execOp (tool : String) (args : List String) (cwd : Option String)
  | existsOp (path : String)
  | deleteFileOp (path : String)
  | deleteDirOp (path : String)
  deriving DecidableEq, Repr

/-- Oracle environment for one run of `compilePgfToPdf`: the temp-directory
root and the random suffix `fs.promises.mkdtemp` appends, the content of
the original source file, and the outcomes of the fallible external steps
(`none` / `Except.error` meaning the step threw). -/
structure CompileEnv where
  osTmpDir : String
  tmpSuffix : String
  srcContent : String
  readSrcResult : Option String
  pdflatexResult : Except String Unit
  logResult : Option String
  pdfExists : Bool

/-- Result of `compilePgfToPdf`: the `{ tmpRoot, pdfPath }` record on
success, or the message of the thrown `Error`. -/
inductive CompileResult where
  | ok (tmpRoot pdfPath : String)
  | fail (message : String)
  deriving DecidableEq, Repr

/-- A compile run: the operations performed, in order, and the result. -/
structure CompileTrace where
  ops : List FsOp
  result : CompileResult
  deriving DecidableEq, Repr

/-- The function `compilePgfToPdf` of source lines 40-91, as a function of
the oracle environment, recording its operation trace. -/
def compilePgfToPdf (srcPath : String) (env : CompileEnv) : CompileTrace :=
  let tmpRoot := env.osTmpDir ++ "/vscode-pgf-" ++ env.tmpSuffix
  let base := baseNoExt srcPath
  let dstSrc := joinPath tmpRoot (basenameOf srcPath)
  let texName := base ++ ".tex"
  let texPath := joinPath tmpRoot texName
  let srcText := env.readSrcResult.getD ""
  let texContent := synthesizeTex srcPath (extractMatplotlibPreamble srcText)
  let ops0 : List FsOp :=
    [.mkdtempOp (joinPath env.osTmpDir "vscode-pgf-"),
     .copyFileOp srcPath dstSrc,
     .readFileOp dstSrc,
     .writeFileOp texPath texContent,
     .execOp "pdflatex" ["-interaction=batchmode", "-output-directory", tmpRoot, texName]
       (some tmpRoot)]
  match env.pdflatexResult with
  | .error errMsg =>
    let logPath := joinPath tmpRoot (base ++ ".log")
    let log := env.logResult.getD ""
    let short :=
      if log ≠ "" ∧ jsLength log > 200 then jsSlice log 200 ++ "..."
      else if log ≠ "" then log else errMsg
    { ops := ops0 ++ [.readFileOp logPath],
      result := .fail ("Failed to build PGF: " ++ short) }
  | .ok _ =>
    let pdfPath := joinPath tmpRoot (base ++ ".pdf")
    { ops := ops0 ++ [.existsOp pdfPath],
      result :=
        if env.pdfExists then .ok tmpRoot pdfPath
        else .fail "PDF not produced. Ensure `pdflatex` is installed." }

/-- Oracle outcomes of one rasterizer attempt: whether the `execFile` call
returned or threw, and whether the expected PNG exists afterwards (only
consulted when the call returned). -/
structure RasterAttempt where
  execResult : Except String Unit
  pngExists : Bool

/-- Oracle environment for `renderPdfToPng`: one attempt outcome per
tool. -/
structure RasterEnv where
  pdftocairo : RasterAttempt
  pdftoppm : RasterAttempt
  convert : RasterAttempt

/-- Result of `renderPdfToPng`: either the PNG path or the message of the
thrown `Error`. -/
inductive RasterResult where
  | ok (pngPath : String)
  | fail (message : String)
  deriving DecidableEq, Repr

/-- A raster run: operations performed, in order, and the result. -/
structure RasterTrace where
  ops : List FsOp
  result : RasterResult
  deriving DecidableEq, Repr

/-- An attempt "succeeds" when the tool invocation returned without
throwing and the expected PNG file exists afterwards. -/
def attemptSucceeds (a : RasterAttempt) : Bool :=
  (match a.execResult with | .ok _ => true | .error _ => false) && a.pngExists

/-- The function `renderPdfToPng` of source lines 94-120: try
`pdftocairo`, then `pdftoppm`, then `convert`, each guarded by an
existence check of the expected PNG; a thrown invocation error skips the
existence check and falls through to the next tool. -/
def renderPdfToPng (pdfPath tmpRoot : String) (env : RasterEnv) : RasterTrace :=
  let base := baseNoExt pdfPath
  let outPref := joinPath tmpRoot base
  let pngPath := joinPath tmpRoot (base ++ ".png")
  let cairoCall : FsOp := .execOp "pdftocairo" ["-png", "-singlefile", pdfPath, outPref] none
  let ppmCall : FsOp := .execOp "pdftoppm" ["-png", "-singlefile", pdfPath, outPref] none
  let convCall : FsOp := .execOp "convert" ["-density", "300", pdfPath, pngPath] none
  let failMsg :=
    "No rasterizer found: please install pdftocairo, pdftoppm, or ImageMagick `convert`."
  let step3 (acc : List FsOp) : RasterTrace :=
    match env.convert.execResult with
    | .ok _ =>
      if env.convert.pngExists then
        { ops := acc ++ [convCall, .existsOp pngPath], result := .ok pngPath }
      else
        { ops := acc ++ [convCall, .existsOp pngPath], result := .fail failMsg }
    | .error _ => { ops := acc ++ [convCall], result := .fail failMsg }
  let step2 (acc : List FsOp) : RasterTrace :=
    match env.pdftoppm.execResult with
    | .ok _ =>
      if env.pdftoppm.pngExists then
        { ops := acc ++ [ppmCall, .existsOp pngPath], result := .ok pngPath }
      else step3 (acc ++ [ppmCall, .existsOp pngPath])
    | .error _ => step3 (acc ++ [ppmCall])
  match env.pdftocairo.execResult with
  | .ok _ =>
    if env.pdftocairo.pngExists then
      { ops := [cairoCall, .existsOp pngPath], result := .ok pngPath }
    else step2 [cairoCall, .existsOp pngPath]
  | .error _ => step2 [cairoCall]

/-- Terminal outcome of `resolveCustomEditor`: the PNG handed to the
built-in viewer, the PDF-only fallback page with the raster error, or the
compile-error page. -/
inductive ConversionOutcome where
  | rasterSuccess (imagePath : String)
  | pdfOnly (pdfPath message : String)
  | compileFailure (message : String)
  deriving DecidableEq, Repr

/-- An orchestrated run: the compile-stage operations, the raster-stage
operations (empty when the raster stage was never entered) and the
terminal outcome. -/
structure ResolveTrace where
  compileOps : List FsOp
  rasterOps : List FsOp
  outcome : ConversionOutcome
  deriving DecidableEq, Repr

/-- The method `PgfViewerProvider.resolveCustomEditor` of source lines
128-150: compile, and on success rasterize; the outer catch turns a
compile error into the error page, the inner catch turns a raster error
into the PDF-fallback page. -/
def resolveCustomEditor (srcPath : String) (cenv : CompileEnv) (renv : RasterEnv) :
    ResolveTrace :=
  let ct := compilePgfToPdf srcPath cenv
  match ct.result with
  | .fail msg => { compileOps := ct.ops, rasterOps := [], outcome := .compileFailure msg }
  | .ok tmpRoot pdfPath =>
    let rt := renderPdfToPng pdfPath tmpRoot renv
    match rt.result with
    | .ok png =>
      { compileOps := ct.ops, rasterOps := rt.ops, outcome := .rasterSuccess png }
    | .fail e =>
      { compileOps := ct.ops, rasterOps := rt.ops, outcome := .pdfOnly pdfPath e }

/-! Helper lemmas about the extractor. -/

theorem extractCore_cons (l : List Char) (rest : List (List Char)) :
    extractCore (l :: rest) =
      if isMarkerLine l then
        (let out := (rest.takeWhile isIndentLine).map stripCommentPrefix
         let r := jsTrim (List.intercalate ['\n'] out)
         if r.isEmpty then none else some r)
      else extractCore rest := by
  rfl

theorem extractCore_cons_pos (l : List Char) (rest : List (List Char))
    (h : isMarkerLine l = true) :
    extractCore (l :: rest) =
      if (jsTrim (List.intercalate ['\n']
            ((rest.takeWhile isIndentLine).map stripCommentPrefix))).isEmpty then none
      else some (jsTrim (List.intercalate ['\n']
            ((rest.takeWhile isIndentLine).map stripCommentPrefix))) := by
  rw [extractCore_cons, if_pos h]

theorem extractCore_append_no_marker (pre rest : List (List Char))
    (h : ∀ l ∈ pre, isMarkerLine l = false) :
    extractCore (pre ++ rest) = extractCore rest := by
  induction pre with
  | nil => rfl
  | cons l pre ih =>
    rw [List.cons_append, extractCore_cons, if_neg, ih]
    · intro a ha
      exact h a (List.mem_cons_of_mem l ha)
    · simp [h l (List.mem_cons_self l pre)]

theorem takeWhile_append_all {α : Type} (p : α → Bool) (xs ys : List α)
    (hx : ∀ x ∈ xs, p x = true)
    (hy : ∀ y, ys.head? = some y → p y = false) :
    (xs ++ ys).takeWhile p = xs := by
  induction xs with
  | nil =>
    cases ys with
    | nil => rfl
    | cons y t => simp [List.takeWhile_cons, hy y rfl]
  | cons x xs ih =>
    rw [List.cons_append, List.takeWhile_cons, if_pos (hx x (List.mem_cons_self x xs))]
    rw [ih (fun a ha => hx a (List.mem_cons_of_mem x ha))]

theorem dropWhile_head?_false {α : Type} (p : α → Bool) (l : List α) :
    ∀ a, (l.dropWhile p).head? = some a → p a = false := by
  induction l with
  | nil => intro a h; simp at h
  | cons x xs ih =>
    intro a h
    rw [List.dropWhile_cons] at h
    by_cases hp : p x
    · exact ih a (by simpa [hp] using h)
    · rw [if_neg hp] at h
      have hax : x = a := by simpa using h
      rw [← hax]
      simpa using hp

theorem dropWhile_eq_self_of_head {α : Type} (p : α → Bool) (l : List α)
    (h : ∀ a, l.head? = some a → p a = false) :
    l.dropWhile p = l := by
  cases l with
  | nil => rfl
  | cons x xs => simp [List.dropWhile_cons, h x rfl]

theorem dropWhile_dropWhile {α : Type} (p : α → Bool) (l : List α) :
    (l.dropWhile p).dropWhile p = l.dropWhile p :=
  dropWhile_eq_self_of_head p _ (dropWhile_head?_false p l)

theorem jsTrim_head?_false (l : List Char) :
    ∀ a, (jsTrim l).head? = some a → jsIsSpace a = false := by
  intro a h
  unfold jsTrim at h
  rw [List.head?_reverse] at h
  have hne : (l.dropWhile jsIsSpace).reverse.dropWhile jsIsSpace ≠ [] := by
    intro hnil
    rw [hnil] at h
    simp at h
  have h3 := List.getLast?_append_of_ne_nil
    (List.takeWhile jsIsSpace (l.dropWhile jsIsSpace).reverse) hne
  rw [List.takeWhile_append_dropWhile] at h3
  have h2 : (l.dropWhile jsIsSpace).reverse.getLast? = some a := h3.trans h
  rw [List.getLast?_reverse] at h2
  exact dropWhile_head?_false jsIsSpace l a h2

theorem jsTrim_idem (l : List Char) : jsTrim (jsTrim l) = jsTrim l := by
  conv_lhs => rw [jsTrim]
  rw [dropWhile_eq_self_of_head jsIsSpace (jsTrim l) (jsTrim_head?_false l)]
  show ((((l.dropWhile jsIsSpace).reverse.dropWhile jsIsSpace).reverse).reverse.dropWhile
    jsIsSpace).reverse = jsTrim l
  rw [List.reverse_reverse, dropWhile_dropWhile]
  rfl

/-- C1: for every source text whose lines decompose into a (marker-free)
prefix, a marker line, a block of comment-indented lines and a remainder
that does not continue the block, extraction returns exactly the
de-commented, newline-joined, trimmed block (here required to be
non-empty, as a well-formed block is); and for every text without a
marker line, extraction returns `null`. -/
theorem extract_wellformed_block_or_no_marker :
    (∀ (text : String) (pre : List (List Char)) (m : List Char)
        (block post : List (List Char)),
      splitLines text.data = pre ++ m :: (block ++ post) →
      (∀ l ∈ pre, isMarkerLine l = false) →
      isMarkerLine m = true →
      (∀ l ∈ block, isIndentLine l = true) →
      (∀ l ∈ post.head?.toList, isIndentLine l = false) →
      jsTrim (List.intercalate ['\n'] (block.map stripCommentPrefix)) ≠ [] →
      extractMatplotlibPreamble text =
        some ⟨jsTrim (List.intercalate ['\n'] (block.map stripCommentPrefix))⟩) ∧
    (∀ text : String,
      (∀ l ∈ splitLines text.data, isMarkerLine l = false) →
      extractMatplotlibPreamble text = none) := by
  constructor
  · intro text pre m block post hsplit hpre hm hblock hpost hne
    unfold extractMatplotlibPreamble
    rw [hsplit, extractCore_append_no_marker pre _ hpre, extractCore_cons_pos _ _ hm]
    rw [takeWhile_append_all isIndentLine block post hblock
          (fun y hy => hpost y (by simp [hy]))]
    have hEmpty : ¬ ((jsTrim (List.intercalate ['\n']
        (block.map stripCommentPrefix))).isEmpty = true) := by
      rw [List.isEmpty_iff]; exact hne
    rw [if_neg hEmpty]
    rfl
  · intro text h
    unfold extractMatplotlibPreamble
    have : extractCore (splitLines text.data) = extractCore [] := by
      have := extractCore_append_no_marker (splitLines text.data) [] h
      simpa using this
    rw [this]
    rfl

/-- Witness for C1: a source containing a marked preamble block and a
terminating non-indented line yields exactly the de-commented block. -/
theorem extract_wellformed_block_or_no_marker_witness :
    extractMatplotlibPreamble
        "%% Matplotlib used the following preamble\n%%   \\usepackage{amsmath}\nx" =
      some "\\usepackage{amsmath}" := by
  have h := extract_wellformed_block_or_no_marker.1
    "%% Matplotlib used the following preamble\n%%   \\usepackage{amsmath}\nx"
    [] ("%% Matplotlib used the following preamble".data)
    ["%%   \\usepackage{amsmath}".data] ["x".data]
    (by decide) (by decide) (by decide) (by decide) (by decide) (by decide)
  exact h.trans (by decide)

/-- C7: scanning stops at the first line after the marker that fails the
comment-plus-indentation pattern: the extraction result does not depend on
anything at or beyond that line. -/
theorem extract_stops_at_first_mismatch :
    ∀ (pre : List (List Char)) (m : List Char) (block : List (List Char))
      (bad : List Char) (rest : List (List Char)),
      (∀ l ∈ pre, isMarkerLine l = false) →
      isMarkerLine m = true →
      (∀ l ∈ block, isIndentLine l = true) →
      isIndentLine bad = false →
      extractCore (pre ++ m :: (block ++ bad :: rest)) =
        extractCore (pre ++ m :: (block ++ [bad])) := by
  intro pre m block bad rest hpre hm hblock hbad
  rw [extractCore_append_no_marker pre _ hpre, extractCore_append_no_marker pre _ hpre]
  rw [extractCore_cons_pos _ _ hm, extractCore_cons_pos _ _ hm]
  rw [takeWhile_append_all isIndentLine block (bad :: rest) hblock
        (fun y hy => by
          have : y = bad := by simpa using hy.symm
          rw [this]; exact hbad)]
  rw [takeWhile_append_all isIndentLine block [bad] hblock
        (fun y hy => by
          have : y = bad := by simpa using hy.symm
          rw [this]; exact hbad)]

/-- Witness for C7: extending the text beyond the first non-matching line
does not change the result. -/
theorem extract_stops_at_first_mismatch_witness :
    extractCore (["x".data] ++
        "% Matplotlib used the following preamble".data ::
        (["%   a".data] ++ "b".data :: ["%   c".data])) =
      extractCore (["x".data] ++
        "% Matplotlib used the following preamble".data ::
        (["%   a".data] ++ ["b".data])) := by
  exact extract_stops_at_first_mismatch
    ["x".data]
    ("% Matplotlib used the following preamble".data)
    ["%   a".data] ("b".data) ["%   c".data]
    (by decide) (by decide) (by decide) (by decide)

theorem extractCore_shape (ls : List (List Char)) :
    extractCore ls = none ∨
      ∃ r, extractCore ls = some r ∧ r ≠ [] ∧ jsTrim r = r := by
  induction ls with
  | nil => left; rfl
  | cons l rest ih =>
    rw [extractCore_cons]
    by_cases h : isMarkerLine l = true
    · rw [if_pos h]
      by_cases hr : (jsTrim (List.intercalate ['\n']
          ((rest.takeWhile isIndentLine).map stripCommentPrefix))).isEmpty = true
      · left
        simp [hr]
      · right
        refine ⟨jsTrim (List.intercalate ['\n']
            ((rest.takeWhile isIndentLine).map stripCommentPrefix)), ?_, ?_, jsTrim_idem _⟩
        · rw [if_neg hr]
        · intro hc
          exact hr (List.isEmpty_iff.mpr hc)
    · rw [if_neg h]
      exact ih

/-- C8: the extractor is total on all inputs and returns either `null` or
a non-empty string that is invariant under trimming. -/
theorem extract_total_and_trimmed (text : String) :
    extractMatplotlibPreamble text = none ∨
      ∃ s : String, extractMatplotlibPreamble text = some s ∧ s ≠ "" ∧
        jsTrim s.data = s.data := by
  unfold extractMatplotlibPreamble
  rcases extractCore_shape (splitLines text.data) with h | ⟨r, hr, hne, htrim⟩
  · left; rw [h]; rfl
  · right
    refine ⟨⟨r⟩, by rw [hr]; rfl, ?_, htrim⟩
    intro hcontra
    exact hne (by simpa using congrArg String.data hcontra)

/-- C5: the document written into the workspace during compilation is the
fixed template — `standalone` class with a 1mm border, packages `pgf` and
`lmodern`, the extracted preamble (when present) directly after them — and
its single `\input` directive references the original source path, not the
copy placed in the workspace. -/
theorem synthesized_document_template (srcPath : String) (env : CompileEnv) :
    ∃ pre,
      pre = extractMatplotlibPreamble (env.readSrcResult.getD "") ∧
      (compilePgfToPdf srcPath env).ops[3]? =
        some (.writeFileOp
          (joinPath (env.osTmpDir ++ "/vscode-pgf-" ++ env.tmpSuffix)
            (baseNoExt srcPath ++ ".tex"))
          (synthesizeTex srcPath pre)) ∧
      (pre = none →
        synthesizeTex srcPath pre =
          "\\documentclass[border=1mm]{standalone}\n\\usepackage{pgf}\n\\usepackage{lmodern}\n" ++
            ("\\begin\x7bdocument\x7d\n\\input\x7b" ++ srcPath ++ "\x7d\n\\end\x7bdocument\x7d\n")) ∧
      (∀ p, pre = some p → p ≠ "" →
        synthesizeTex srcPath pre =
          "\\documentclass[border=1mm]{standalone}\n\\usepackage{pgf}\n\\usepackage{lmodern}\n" ++
            (p ++ "\n") ++
            ("\\begin\x7bdocument\x7d\n\\input\x7b" ++ srcPath ++ "\x7d\n\\end\x7bdocument\x7d\n")) := by
  refine ⟨extractMatplotlibPreamble (env.readSrcResult.getD ""), rfl, ?_, ?_, ?_⟩
  · cases h : env.pdflatexResult with
    | error e => simp [compilePgfToPdf, h]
    | ok u => simp [compilePgfToPdf, h]
  · intro hnone
    rw [hnone]
    simp only [synthesizeTex, String.append_empty, String.append_assoc]
  · intro p hp hpne
    rw [hp]
    simp only [synthesizeTex, if_neg hpne, String.append_assoc]

/-- Witness for C5: the template at a concrete source path with a concrete
non-empty extracted preamble. -/
theorem synthesized_document_template_witness :
    synthesizeTex "/home/u/fig.pgf" (some "\\usepackage{amsmath}") =
      "\\documentclass[border=1mm]{standalone}\n\\usepackage{pgf}\n\\usepackage{lmodern}\n" ++
        ("\\usepackage{amsmath}" ++ "\n") ++
        ("\\begin\x7bdocument\x7d\n\\input\x7b" ++ "/home/u/fig.pgf" ++
          "\x7d\n\\end\x7bdocument\x7d\n") := by
  have h := synthesized_document_template "/home/u/fig.pgf"
    { osTmpDir := "/tmp", tmpSuffix := "abc", srcContent := "",
      readSrcResult :=
        some "%% Matplotlib used the following preamble\n%%   \\usepackage{amsmath}\n",
      pdflatexResult := .ok (), logResult := none, pdfExists := true }
  rcases h with ⟨pre, hpre, _hops, _hnone, hsome⟩
  have hval : pre = some "\\usepackage{amsmath}" := by
    rw [hpre]
    decide
  have := hsome "\\usepackage{amsmath}" hval (by decide)
  rw [hval] at this
  exact this

/-- C6: when the pdflatex invocation returns without error, the expected
PDF path is checked for existence as the final operation, an existing PDF
yields success with that path, and a missing PDF yields the
`PDF not produced` failure — exit status alone never decides success. -/
theorem pdf_existence_decides_success (srcPath : String) (env : CompileEnv)
    (h : env.pdflatexResult = .ok ()) :
    (compilePgfToPdf srcPath env).ops.getLast? =
      some (.existsOp (joinPath (env.osTmpDir ++ "/vscode-pgf-" ++ env.tmpSuffix)
        (baseNoExt srcPath ++ ".pdf"))) ∧
    (env.pdfExists = true →
      (compilePgfToPdf srcPath env).result =
        .ok (env.osTmpDir ++ "/vscode-pgf-" ++ env.tmpSuffix)
          (joinPath (env.osTmpDir ++ "/vscode-pgf-" ++ env.tmpSuffix)
            (baseNoExt srcPath ++ ".pdf"))) ∧
    (env.pdfExists = false →
      (compilePgfToPdf srcPath env).result =
        .fail "PDF not produced. Ensure `pdflatex` is installed.") := by
  refine ⟨?_, ?_, ?_⟩
  · simp [compilePgfToPdf, h]
  · intro hpdf
    simp [compilePgfToPdf, h, hpdf]
  · intro hpdf
    simp [compilePgfToPdf, h, hpdf]

/-- Witness for C6 at a concrete run in which pdflatex succeeds and the
PDF exists. -/
theorem pdf_existence_decides_success_witness :
    (compilePgfToPdf "/home/u/fig.pgf"
        { osTmpDir := "/tmp", tmpSuffix := "abc", srcContent := "", readSrcResult := some "",
          pdflatexResult := .ok (), logResult := none, pdfExists := true }).result =
      .ok "/tmp/vscode-pgf-abc" "/tmp/vscode-pgf-abc/fig.pdf" := by
  have h := pdf_existence_decides_success "/home/u/fig.pgf"
    { osTmpDir := "/tmp", tmpSuffix := "abc", srcContent := "", readSrcResult := some "",
      pdflatexResult := .ok (), logResult := none, pdfExists := true } rfl
  exact (h.2.1 rfl).trans (by decide)

/-- C10: a failed read of the copied source is swallowed — the run is
indistinguishable from a run whose source text is empty, the extractor
yields `null` on the empty text, and the synthesized document is the
preamble-free template. -/
theorem read_failure_swallowed (srcPath : String) (env : CompileEnv)
    (h : env.readSrcResult = none) :
    compilePgfToPdf srcPath env =
      compilePgfToPdf srcPath { env with readSrcResult := some "" } ∧
    extractMatplotlibPreamble "" = none ∧
    (compilePgfToPdf srcPath env).ops[3]? =
      some (.writeFileOp
        (joinPath (env.osTmpDir ++ "/vscode-pgf-" ++ env.tmpSuffix)
          (baseNoExt srcPath ++ ".tex"))
        (synthesizeTex srcPath none)) := by
  refine ⟨?_, by decide, ?_⟩
  · simp [compilePgfToPdf, h]
  · have hnone : extractMatplotlibPreamble "" = none := by decide
    cases hp : env.pdflatexResult with
    | error e => simp [compilePgfToPdf, hp, h, hnone]
    | ok u => simp [compilePgfToPdf, hp, h, hnone]

/-- Witness for C10: with a failing read, pdflatex succeeding and the PDF
present, the request still succeeds. -/
theorem read_failure_swallowed_witness :
    (compilePgfToPdf "/home/u/fig.pgf"
        { osTmpDir := "/tmp", tmpSuffix := "abc", srcContent := "x", readSrcResult := none,
          pdflatexResult := .ok (), logResult := none, pdfExists := true }) =
      (compilePgfToPdf "/home/u/fig.pgf"
        { osTmpDir := "/tmp", tmpSuffix := "abc", srcContent := "x", readSrcResult := some "",
          pdflatexResult := .ok (), logResult := none, pdfExists := true }) := by
  exact (read_failure_swallowed "/home/u/fig.pgf"
    { osTmpDir := "/tmp", tmpSuffix := "abc", srcContent := "x", readSrcResult := none,
      pdflatexResult := .ok (), logResult := none, pdfExists := true } rfl).1

/-- Rendering of claim C2 exactly as stated, for a given log-read outcome,
raw invocation error message and reported diagnostic: a log longer than
203 characters is truncated to its first 200 characters plus an ellipsis,
a log of at most 203 characters is reported in full, and a missing log
falls back to the raw error message. -/
def diagnosticClaim (logContent : Option String) (errMsg d : String) : Prop :=
  match logContent with
  | some l => (jsLength l > 203 → d = jsSlice l 200 ++ "...") ∧
      (jsLength l ≤ 203 → d = l)
  | none => d = errMsg

/-- Claim C2 instantiated at a source path and an environment. -/
def c2ClaimAt (srcPath : String) (env : CompileEnv) : Prop :=
  ∀ m d, env.pdflatexResult = .error m →
    (compilePgfToPdf srcPath env).result = .fail ("Failed to build PGF: " ++ d) →
    diagnosticClaim env.logResult m d

set_option maxRecDepth 4000 in
/-- Counterexample to C2 as stated: with a readable 201-character log the
code truncates to 200 characters plus an ellipsis (203 characters total),
whereas the claim requires any log of at most 203 characters to be
reported in full. -/
theorem truncation_threshold_counterexample :
    ¬ c2ClaimAt "/home/u/fig.pgf"
      { osTmpDir := "/tmp", tmpSuffix := "abc", srcContent := "", readSrcResult := some "",
        pdflatexResult := .error "spawn failed",
        logResult := some ⟨List.replicate 201 'a'⟩, pdfExists := false } := by
  intro hclaim
  have h := hclaim "spawn failed" (jsSlice ⟨List.replicate 201 'a'⟩ 200 ++ "...")
    rfl (by decide)
  exact absurd (h.2 (by decide)) (by decide)

/-- C2 amended: the diagnostic embedded in the compile failure is the
first 200 characters of the log plus an ellipsis (203 characters total)
whenever the log exceeds 200 characters, the full log when the log is
non-empty and of at most 200 characters, and the raw invocation error
message when the log cannot be read or is empty; the log is looked up
under the source base name with a `.log` extension in the workspace. -/
theorem compile_failure_diagnostic (srcPath : String) (env : CompileEnv)
    (m : String) (h : env.pdflatexResult = .error m) :
    ∃ d, (compilePgfToPdf srcPath env).result = .fail ("Failed to build PGF: " ++ d) ∧
      (compilePgfToPdf srcPath env).ops.getLast? =
        some (.readFileOp (joinPath (env.osTmpDir ++ "/vscode-pgf-" ++ env.tmpSuffix)
          (baseNoExt srcPath ++ ".log"))) ∧
      (∀ l, env.logResult = some l → jsLength l > 200 →
        d = jsSlice l 200 ++ "..." ∧ jsLength d = 203) ∧
      (∀ l, env.logResult = some l → l ≠ "" → jsLength l ≤ 200 → d = l) ∧
      ((env.logResult = none ∨ env.logResult = some "") → d = m) := by
  refine ⟨if env.logResult.getD "" ≠ "" ∧ jsLength (env.logResult.getD "") > 200 then
      jsSlice (env.logResult.getD "") 200 ++ "..."
    else if env.logResult.getD "" ≠ "" then env.logResult.getD "" else m,
    ?_, ?_, ?_, ?_, ?_⟩
  · simp only [compilePgfToPdf, h]
  · simp [compilePgfToPdf, h]
  · intro l hl hlen
    rw [hl]
    simp only [Option.getD_some]
    have hne : (l : String) ≠ "" := by
      intro hc
      rw [hc] at hlen
      simp [jsLength] at hlen
    rw [if_pos ⟨hne, hlen⟩]
    refine ⟨rfl, ?_⟩
    show (jsSlice l 200 ++ "...").data.length = 203
    have hdata : (jsSlice l 200 ++ "...").data = l.data.take 200 ++ "...".data := rfl
    rw [hdata, List.length_append, List.length_take]
    have hl2 : 200 < l.data.length := hlen
    rw [Nat.min_eq_left (Nat.le_of_lt hl2)]
    decide
  · intro l hl hne hlen
    rw [hl]
    simp only [Option.getD_some]
    have hlen2 : ¬ (jsLength l > 200) := by omega
    rw [if_neg (by
      intro hcontra
      exact hlen2 hcontra.2)]
    rw [if_pos hne]
  · intro hcase
    rcases hcase with hc | hc <;> rw [hc] <;> simp

/-- Witness for the amended C2: a concrete failing run with a short
readable log reports the full log. -/
theorem compile_failure_diagnostic_witness :
    (compilePgfToPdf "/home/u/fig.pgf"
        { osTmpDir := "/tmp", tmpSuffix := "abc", srcContent := "", readSrcResult := some "",
          pdflatexResult := .error "spawn failed", logResult := some "log body",
          pdfExists := false }).result = .fail "Failed to build PGF: log body" := by
  have h := compile_failure_diagnostic "/home/u/fig.pgf"
    { osTmpDir := "/tmp", tmpSuffix := "abc", srcContent := "", readSrcResult := some "",
      pdflatexResult := .error "spawn failed", logResult := some "log body",
      pdfExists := false } "spawn failed" rfl
  rcases h with ⟨d, h1, _h2, _h3, h4, _h5⟩
  have hd : d = "log body" := h4 "log body" rfl (by decide) (by decide)
  rw [hd] at h1
  exact h1.trans (by decide)

/-- Projection of a trace to the external tool invocations it contains. -/
def execCallsOf (ops : List FsOp) : List FsOp :=
  ops.filter fun op =>
    match op with
    | .execOp _ _ _ => true
    | _ => false

/-- C3: the raster stage tries `pdftocairo`, `pdftoppm` and `convert`
strictly in that order, `convert` with an explicit density of 300 DPI; an
attempt succeeds exactly when its invocation returns and the expected PNG
exists afterwards; each failed attempt is swallowed and the next tool
invoked; the stage throws the no-rasterizer error precisely when all
three attempts fail, in which case all three tools were invoked. -/
theorem raster_fallback_order (pdfPath tmpRoot : String) (env : RasterEnv) :
    (attemptSucceeds env.pdftocairo = true →
      (renderPdfToPng pdfPath tmpRoot env).result =
        .ok (joinPath tmpRoot (baseNoExt pdfPath ++ ".png")) ∧
      execCallsOf (renderPdfToPng pdfPath tmpRoot env).ops =
        [.execOp "pdftocairo"
          ["-png", "-singlefile", pdfPath, joinPath tmpRoot (baseNoExt pdfPath)] none]) ∧
    (attemptSucceeds env.pdftocairo = false → attemptSucceeds env.pdftoppm = true →
      (renderPdfToPng pdfPath tmpRoot env).result =
        .ok (joinPath tmpRoot (baseNoExt pdfPath ++ ".png")) ∧
      execCallsOf (renderPdfToPng pdfPath tmpRoot env).ops =
        [.execOp "pdftocairo"
          ["-png", "-singlefile", pdfPath, joinPath tmpRoot (baseNoExt pdfPath)] none,
         .execOp "pdftoppm"
          ["-png", "-singlefile", pdfPath, joinPath tmpRoot (baseNoExt pdfPath)] none]) ∧
    (attemptSucceeds env.pdftocairo = false → attemptSucceeds env.pdftoppm = false →
      attemptSucceeds env.convert = true →
      (renderPdfToPng pdfPath tmpRoot env).result =
        .ok (joinPath tmpRoot (baseNoExt pdfPath ++ ".png")) ∧
      execCallsOf (renderPdfToPng pdfPath tmpRoot env).ops =
        [.execOp "pdftocairo"
          ["-png", "-singlefile", pdfPath, joinPath tmpRoot (baseNoExt pdfPath)] none,
         .execOp "pdftoppm"
          ["-png", "-singlefile", pdfPath, joinPath tmpRoot (baseNoExt pdfPath)] none,
         .execOp "convert"
          ["-density", "300", pdfPath, joinPath tmpRoot (baseNoExt pdfPath ++ ".png")] none]) ∧
    (attemptSucceeds env.pdftocairo = false → attemptSucceeds env.pdftoppm = false →
      attemptSucceeds env.convert = false →
      (renderPdfToPng pdfPath tmpRoot env).result =
        .fail "No rasterizer found: please install pdftocairo, pdftoppm, or ImageMagick `convert`." ∧
      execCallsOf (renderPdfToPng pdfPath tmpRoot env).ops =
        [.execOp "pdftocairo"
          ["-png", "-singlefile", pdfPath, joinPath tmpRoot (baseNoExt pdfPath)] none,
         .execOp "pdftoppm"
          ["-png", "-singlefile", pdfPath, joinPath tmpRoot (baseNoExt pdfPath)] none,
         .execOp "convert"
          ["-density", "300", pdfPath, joinPath tmpRoot (baseNoExt pdfPath ++ ".png")] none]) := by
  rcases env with ⟨⟨e1, x1⟩, ⟨e2, x2⟩, ⟨e3, x3⟩⟩
  rcases e1 with m1 | u1 <;> rcases e2 with m2 | u2 <;> rcases e3 with m3 | u3 <;>
    cases x1 <;> cases x2 <;> cases x3 <;>
      simp [renderPdfToPng, attemptSucceeds, execCallsOf]

/-- Witness for C3: when only `convert` succeeds, the stage returns the
PNG and all three tools were invoked, in order. -/
theorem raster_fallback_order_witness :
    (renderPdfToPng "/tmp/vscode-pgf-abc/fig.pdf" "/tmp/vscode-pgf-abc"
        { pdftocairo := { execResult := .error "not found", pngExists := false },
          pdftoppm := { execResult := .ok (), pngExists := false },
          convert := { execResult := .ok (), pngExists := true } }).result =
      .ok (joinPath "/tmp/vscode-pgf-abc" (baseNoExt "/tmp/vscode-pgf-abc/fig.pdf" ++ ".png")) ∧
    execCallsOf (renderPdfToPng "/tmp/vscode-pgf-abc/fig.pdf" "/tmp/vscode-pgf-abc"
        { pdftocairo := { execResult := .error "not found", pngExists := false },
          pdftoppm := { execResult := .ok (), pngExists := false },
          convert := { execResult := .ok (), pngExists := true } }).ops =
      [.execOp "pdftocairo"
        ["-png", "-singlefile", "/tmp/vscode-pgf-abc/fig.pdf",
          joinPath "/tmp/vscode-pgf-abc" (baseNoExt "/tmp/vscode-pgf-abc/fig.pdf")] none,
       .execOp "pdftoppm"
        ["-png", "-singlefile", "/tmp/vscode-pgf-abc/fig.pdf",
          joinPath "/tmp/vscode-pgf-abc" (baseNoExt "/tmp/vscode-pgf-abc/fig.pdf")] none,
       .execOp "convert"
        ["-density", "300", "/tmp/vscode-pgf-abc/fig.pdf",
          joinPath "/tmp/vscode-pgf-abc" (baseNoExt "/tmp/vscode-pgf-abc/fig.pdf" ++ ".png")]
        none] := by
  exact (raster_fallback_order "/tmp/vscode-pgf-abc/fig.pdf" "/tmp/vscode-pgf-abc"
    { pdftocairo := { execResult := .error "not found", pngExists := false },
      pdftoppm := { execResult := .ok (), pngExists := false },
      convert := { execResult := .ok (), pngExists := true } }).2.2.1
    (by decide) (by decide) (by decide)

/-- C4: the orchestrator maps every run to exactly one of the three
terminal outcomes, never letting a failure escape: a compile failure
yields the compile-failure report without ever invoking a rasterizer; a
compile success followed by a raster failure yields the PDF-only fallback
carrying the compiled PDF path and the raster error; two successes yield
the raster image path. -/
theorem orchestrator_outcomes (srcPath : String) (cenv : CompileEnv) (renv : RasterEnv) :
    (∀ msg, (compilePgfToPdf srcPath cenv).result = .fail msg →
      (resolveCustomEditor srcPath cenv renv).outcome = .compileFailure msg ∧
      (resolveCustomEditor srcPath cenv renv).rasterOps = []) ∧
    (∀ tmp pdf, (compilePgfToPdf srcPath cenv).result = .ok tmp pdf →
      (∀ png, (renderPdfToPng pdf tmp renv).result = .ok png →
        (resolveCustomEditor srcPath cenv renv).outcome = .rasterSuccess png) ∧
      (∀ e, (renderPdfToPng pdf tmp renv).result = .fail e →
        (resolveCustomEditor srcPath cenv renv).outcome = .pdfOnly pdf e)) := by
  constructor
  · intro msg hmsg
    constructor <;> simp [resolveCustomEditor, hmsg]
  · intro tmp pdf hok
    constructor
    · intro png hpng
      simp [resolveCustomEditor, hok, hpng]
    · intro e he
      simp [resolveCustomEditor, hok, he]

/-- Witness for C4 on the compile-failure path: pdflatex fails, the
outcome is the compile failure and no rasterizer operation is recorded. -/
theorem orchestrator_outcomes_witness :
    (resolveCustomEditor "/home/u/fig.pgf"
        { osTmpDir := "/tmp", tmpSuffix := "abc", srcContent := "", readSrcResult := some "",
          pdflatexResult := .error "boom", logResult := none, pdfExists := false }
        { pdftocairo := { execResult := .ok (), pngExists := true },
          pdftoppm := { execResult := .ok (), pngExists := true },
          convert := { execResult := .ok (), pngExists := true } }).outcome =
      .compileFailure "Failed to build PGF: boom" ∧
    (resolveCustomEditor "/home/u/fig.pgf"
        { osTmpDir := "/tmp", tmpSuffix := "abc", srcContent := "", readSrcResult := some "",
          pdflatexResult := .error "boom", logResult := none, pdfExists := false }
        { pdftocairo := { execResult := .ok (), pngExists := true },
          pdftoppm := { execResult := .ok (), pngExists := true },
          convert := { execResult := .ok (), pngExists := true } }).rasterOps = [] := by
  exact (orchestrator_outcomes "/home/u/fig.pgf"
    { osTmpDir := "/tmp", tmpSuffix := "abc", srcContent := "", readSrcResult := some "",
      pdflatexResult := .error "boom", logResult := none, pdfExists := false }
    { pdftocairo := { execResult := .ok (), pngExists := true },
      pdftoppm := { execResult := .ok (), pngExists := true },
      convert := { execResult := .ok (), pngExists := true } }).1
    "Failed to build PGF: boom" (by decide)

/-- Bool test for a deletion operation. -/
def isDeleteOp : FsOp → Bool
  | .deleteFileOp _ => true
  | .deleteDirOp _ => true
  | _ => false

/-- Bool test for a workspace-allocation operation. -/
def isMkdtempOp : FsOp → Bool
  | .mkdtempOp _ => true
  | _ => false

/-- Paths an operation writes to (creates or overwrites a file at). -/
def writeTargets : FsOp → List String
  | .copyFileOp _ dst => [dst]
  | .writeFileOp p _ => [p]
  | _ => []

/-- Bool test that path `p` lies under the directory prefix `dir` (given
with its trailing separator). -/
def underDir (dir p : String) : Bool := dir.data.isPrefixOf p.data

theorem isPrefixOf_append_self {α : Type} [BEq α] [LawfulBEq α] (l t : List α) :
    l.isPrefixOf (l ++ t) = true := by
  induction l with
  | nil => simp [List.isPrefixOf]
  | cons x xs ih => simp [List.isPrefixOf, ih]

theorem underDir_join (dir rest : String) : underDir (dir ++ "/") (joinPath dir rest) = true := by
  show ((dir ++ "/").data).isPrefixOf ((dir ++ "/") ++ rest).data = true
  rw [String.data_append (dir ++ "/") rest]
  exact isPrefixOf_append_self _ _

/-- C9: over a whole orchestrated run, no operation deletes the workspace
or anything inside it; the workspace is allocated exactly once, as the
very first operation, under the OS temp root with the `vscode-pgf-` name
prefix; and every write targets a path inside the workspace. -/
theorem workspace_never_deleted (srcPath : String) (cenv : CompileEnv) (renv : RasterEnv) :
    ((resolveCustomEditor srcPath cenv renv).compileOps ++
        (resolveCustomEditor srcPath cenv renv).rasterOps).all
      (fun op => !isDeleteOp op) = true ∧
    ((resolveCustomEditor srcPath cenv renv).compileOps ++
        (resolveCustomEditor srcPath cenv renv).rasterOps).head? =
      some (.mkdtempOp (joinPath cenv.osTmpDir "vscode-pgf-")) ∧
    (((resolveCustomEditor srcPath cenv renv).compileOps ++
        (resolveCustomEditor srcPath cenv renv).rasterOps).filter isMkdtempOp).length = 1 ∧
    ((resolveCustomEditor srcPath cenv renv).compileOps ++
        (resolveCustomEditor srcPath cenv renv).rasterOps).all
      (fun op => (writeTargets op).all
        (underDir (cenv.osTmpDir ++ "/vscode-pgf-" ++ cenv.tmpSuffix ++ "/"))) = true := by
  have hu : ∀ rest, underDir (cenv.osTmpDir ++ "/vscode-pgf-" ++ cenv.tmpSuffix ++ "/")
      (joinPath (cenv.osTmpDir ++ "/vscode-pgf-" ++ cenv.tmpSuffix) rest) = true :=
    fun rest => underDir_join (cenv.osTmpDir ++ "/vscode-pgf-" ++ cenv.tmpSuffix) rest
  cases hl : cenv.pdflatexResult with
  | error e =>
    refine ⟨?_, ?_, ?_, ?_⟩ <;>
      simp [resolveCustomEditor, compilePgfToPdf, hl, isDeleteOp, isMkdtempOp, writeTargets, hu]
  | ok u =>
    cases hp : cenv.pdfExists with
    | false =>
      refine ⟨?_, ?_, ?_, ?_⟩ <;>
        simp [resolveCustomEditor, compilePgfToPdf, hl, hp, isDeleteOp, isMkdtempOp,
          writeTargets, hu]
    | true =>
      rcases renv with ⟨⟨e1, x1⟩, ⟨e2, x2⟩, ⟨e3, x3⟩⟩
      rcases e1 with m1 | u1 <;> rcases e2 with m2 | u2 <;> rcases e3 with m3 | u3 <;>
        cases x1 <;> cases x2 <;> cases x3 <;>
          refine ⟨?_, ?_, ?_, ?_⟩ <;>
            simp [resolveCustomEditor, compilePgfToPdf, renderPdfToPng, hl, hp,
              isDeleteOp, isMkdtempOp, writeTargets, hu]

end PgfViewer
